import Mathlib

/-!
Verification development for the realtime streaming client core:
the session client (GenAILiveClient, file genai-live-client.ts) and the
connection coordinator (useLiveApi hook, file use-live-api.ts).

Shallow embedding conventions:
* optional object keys become Option fields; the JS test "key in obj"
  becomes Option.isSome, while a JS truthiness test on a value becomes an
  explicit comparison (empty string and 0 are falsy, an empty array is truthy);
* the event emitter is modelled by returning the list of emitted events in
  emission order; console output is a separate list of strings, kept as fixed
  marker texts;
* base64 decoding (base64ToArrayBuffer from utils, which can throw) is a
  parameter dec : String -> Option (List Nat): some bytes on success,
  none when decoding throws;
* transport calls (live.connect, session.close, session.sendRealtimeInput)
  are parameterised by their outcome, and a try/catch in the source becomes
  a total function that maps the throwing outcome to the catch result.
-/

namespace Chatterbots

/-! Data model, from genai-live-client.ts and the @google/genai frame shapes. -/

structure GroundingChunk where
  uri : String
  title : String
deriving DecidableEq, Repr

structure GroundingMetadata where
  groundingChunks : Option (List GroundingChunk)
deriving DecidableEq, Repr

structure InlineData where
  mimeType : Option String
  data : Option String
deriving DecidableEq, Repr

structure Part where
  inlineData : Option InlineData
  text : Option String
deriving DecidableEq, Repr

structure ModelTurn where
  parts : Option (List Part)
deriving DecidableEq, Repr

/-- serverContent sub-frame. interrupted and turnComplete are Option Bool so
that key presence (isSome) is distinguished from the boolean value, matching
the source checks "interrupted in serverContent" / "turnComplete in serverContent". -/
structure ServerContent where
  groundingMetadata : Option GroundingMetadata
  interrupted : Option Bool
  turnComplete : Option Bool
  modelTurn : Option ModelTurn
deriving DecidableEq, Repr

/-- Inbound protocol frame. The three leading fields record the JS truthiness
of message.setupComplete, message.toolCall, message.toolCallCancellation. -/
structure LiveServerMessage where
  setupComplete : Bool
  toolCall : Bool
  toolCallCancellation : Bool
  serverContent : Option ServerContent
deriving DecidableEq, Repr

/-- Events published on the emitter, in the order they are emitted.
Log events keep only their type string (the first argument of this.log);
the log message payload is diagnostic only and is not modelled. -/
inductive ClientEvent where
  | setupcomplete
  | toolcall
  | toolcallcancellation
  | grounding (chunks : List GroundingChunk)
  | interrupted
  | turncomplete
  | audio (bytes : List Nat)
  | content (mt : ModelTurn)
  | errorEv (msg : String)
  | logEv (ty : String)
deriving DecidableEq, Repr

/-- Result of one onMessage run: emitted events plus console output lines. -/
structure Emitted where
  events : List ClientEvent
  console : List String
deriving DecidableEq, Repr

/-- Structural prefix test on character lists (kernel-reducible form of a
string prefix test). -/
def charsStart : List Char → List Char → Bool
  | [], _ => true
  | _ :: _, [] => false
  | a :: as, b :: bs => a == b && charsStart as bs

/-- JS String.prototype.startsWith. -/
def strStartsWith (s pre : String) : Bool := charsStart pre.data s.data

/-- Occurrence of pat anywhere in the character list. -/
def charsHas (pat : List Char) : List Char → Bool
  | [] => charsStart pat []
  | c :: rest => charsStart pat (c :: rest) || charsHas pat rest

/-- JS String.prototype.includes. -/
def strIncludes (s pat : String) : Bool := charsHas pat.data s.data

/-- Optional chaining serverContent.groundingMetadata?.groundingChunks,
with a missing link collapsing to the empty list. -/
def groundingChunksOf (sc : ServerContent) : List GroundingChunk :=
  match sc.groundingMetadata with
  | some gm =>
    match gm.groundingChunks with
    | some cs => cs
    | none => []
  | none => []

/-- The grounding branch of onMessage: if groundingChunks has truthy length,
emit the grounding event then the server.grounding log. -/
def groundingEvents (sc : ServerContent) : List ClientEvent :=
  if (groundingChunksOf sc).length != 0 then
    [ClientEvent.grounding (groundingChunksOf sc),
     ClientEvent.logEv "server.grounding"]
  else []

/-- The audio-part guard of the parts loop:
part.inlineData?.mimeType?.startsWith("audio/pcm") and a truthy
part.inlineData.data (a non-empty base64 string). Returns the payload. -/
def audioData (p : Part) : Option String :=
  match p.inlineData with
  | none => none
  | some idata =>
    match idata.mimeType, idata.data with
    | some m, some d =>
      if strStartsWith m "audio/pcm" && d != "" then some d else none
    | _, _ => none

/-- Console marker for the catch around base64ToArrayBuffer. -/
def decodeFailMsg : String := "Failed to decode base64 audio data:"

/-- The for-loop over serverContent.modelTurn.parts: audio parts are decoded
and emitted (decode failure only writes a console line), every other part is
collected into otherParts. Returns (events, otherParts, console). -/
def processParts (dec : String → Option (List Nat)) :
    List Part → List ClientEvent × List Part × List String
  | [] => ([], [], [])
  | p :: ps =>
    let rest := processParts dec ps
    match audioData p with
    | some d =>
      match dec d with
      | some bytes =>
        (ClientEvent.audio bytes :: ClientEvent.logEv "server.audio" :: rest.1,
         rest.2.1, rest.2.2)
      | none => (rest.1, rest.2.1, decodeFailMsg :: rest.2.2)
    | none => (rest.1, p :: rest.2.1, rest.2.2)

/-- GenAILiveClient.onMessage, the inbound demultiplexer, translated branch
by branch from the source. -/
def onMessage (dec : String → Option (List Nat)) (message : LiveServerMessage) :
    Emitted :=
  if message.setupComplete then ⟨[ClientEvent.setupcomplete], []⟩
  else if message.toolCall then
    ⟨[ClientEvent.logEv "server.toolCall", ClientEvent.toolcall], []⟩
  else if message.toolCallCancellation then
    ⟨[ClientEvent.logEv "receive.toolCallCancellation",
      ClientEvent.toolcallcancellation], []⟩
  else
    match message.serverContent with
    | none => ⟨[], []⟩
    | some sc =>
      let g := groundingEvents sc
      if sc.interrupted.isSome then
        ⟨g ++ [ClientEvent.logEv "receive.serverContent", ClientEvent.interrupted], []⟩
      else
        let tc :=
          if sc.turnComplete.isSome then
            [ClientEvent.logEv "server.send", ClientEvent.turncomplete]
          else []
        match sc.modelTurn with
        | some mt =>
          match mt.parts with
          | some ps =>
            let r := processParts dec ps
            let contentEvs :=
              if r.2.1.length != 0 then
                [ClientEvent.content ⟨some r.2.1⟩, ClientEvent.logEv "server.content"]
              else []
            ⟨g ++ tc ++ r.1 ++ contentEvs, r.2.2⟩
          | none =>
            ⟨g ++ tc ++ [ClientEvent.content mt, ClientEvent.logEv "server.content"], []⟩
        | none => ⟨g ++ tc, ["received unmatched message"]⟩

/-- A frame that carries exactly a serverContent payload. -/
def serverContentMsg (sc : ServerContent) : LiveServerMessage :=
  ⟨false, false, false, some sc⟩

/-! Specification-side descriptions of the parts loop, used to characterise
processParts independently of its recursion. -/

/-- The parts of a modelTurn that do not pass the audio-part guard. -/
def nonAudioParts (ps : List Part) : List Part :=
  ps.filter (fun p => (audioData p).isNone)

/-- Decoded payloads of the audio parts whose base64 decode succeeds,
in arrival order. -/
def decodedAudio (dec : String → Option (List Nat)) (ps : List Part) :
    List (List Nat) :=
  ps.filterMap (fun p => (audioData p).bind dec)

/-- The audio/log event pairs produced for the successfully decoded parts. -/
def audioEventStream (dec : String → Option (List Nat)) (ps : List Part) :
    List ClientEvent :=
  (decodedAudio dec ps).foldr
    (fun b acc => ClientEvent.audio b :: ClientEvent.logEv "server.audio" :: acc) []

/-- One console line per audio part whose payload fails to decode. -/
def failedDecodes (dec : String → Option (List Nat)) (ps : List Part) :
    List String :=
  (ps.filter (fun p => (audioData p).isSome && ((audioData p).bind dec).isNone)).map
    (fun _ => decodeFailMsg)

/-! Session client connection state machine (genai-live-client.ts). -/

inductive Status where
  | disconnected
  | connecting
  | connected
deriving DecidableEq, Repr

/-- The underlying transport handle; only its readyState is observed by the
client (the WebSocket readiness check in sendRealtimeInput). -/
structure SessionHandle where
  readyState : Nat
deriving DecidableEq, Repr

/-- WebSocket.OPEN. -/
def WebSocketOPEN : Nat := 1

structure ClientState where
  status : Status
  session : Option SessionHandle
deriving DecidableEq, Repr

namespace GenAILiveClient

/-- Outcome of the awaited transport call this.client.live.connect. -/
inductive ConnectOutcome where
  | ok (s : SessionHandle)
  | err
deriving DecidableEq, Repr

/-- Result of one GenAILiveClient.connect call: the returned boolean, the
final client state, how many transport open attempts were initiated, and
whether the open event fired (the SDK invokes the installed onopen callback
when the transport opens, which emits open). -/
structure ConnectResult where
  ret : Bool
  state : ClientState
  transportOpens : Nat
  openFired : Bool
deriving DecidableEq, Repr

/-- GenAILiveClient.connect: returns false at once when status is already
connected or connecting, leaving everything untouched; otherwise opens the
transport once, and on a transport failure the catch falls back to status
disconnected with the handle cleared, returning false (it does not rethrow). -/
def connect (st : ClientState) (outcome : ConnectOutcome) : ConnectResult :=
  if st.status = Status.connected ∨ st.status = Status.connecting then
    ⟨false, st, 0, false⟩
  else
    match outcome with
    | ConnectOutcome.err => ⟨false, ⟨Status.disconnected, none⟩, 1, false⟩
    | ConnectOutcome.ok s => ⟨true, ⟨Status.connected, some s⟩, 1, true⟩

structure DisconnectResult where
  ret : Bool
  state : ClientState
  events : List ClientEvent
  console : List String
deriving DecidableEq, Repr

/-- GenAILiveClient.disconnect: this._session?.close() inside try/catch (a
throw only writes a console line), then the finally block always clears the
handle and sets status disconnected; afterwards the client.close log event is
emitted and true is returned. closeThrows says whether the underlying close
call throws when a session is held. -/
def disconnect (st : ClientState) (closeThrows : Bool) : DisconnectResult :=
  let console :=
    match st.session with
    | some _ => if closeThrows then ["Error closing session:"] else []
    | none => []
  ⟨true, ⟨Status.disconnected, none⟩, [ClientEvent.logEv "client.close"], console⟩

/-- GenAILiveClient.send: publishes an error event and stops when not
connected or without a handle; otherwise transmits and logs. -/
def send (st : ClientState) : List ClientEvent :=
  if st.status != Status.connected || st.session.isNone then
    [ClientEvent.errorEv "Client is not connected"]
  else [ClientEvent.logEv "client.send"]

end GenAILiveClient

/-- One outbound realtime media chunk. -/
structure Chunk where
  mimeType : String
  data : String
deriving DecidableEq, Repr

/-- Outcome of one session.sendRealtimeInput transport call: success, or a
throw carrying the error message. -/
inductive SendOutcome where
  | ok
  | errMsg (msg : String)
deriving DecidableEq, Repr

namespace GenAILiveClient

/-- The chunks.forEach body of sendRealtimeInput: every chunk is attempted
inside its own try/catch; a throw whose message includes CLOSING or CLOSED is
swallowed silently, any other throw writes one console line; the loop always
continues with the next chunk. The outcome list pairs with the chunks in
order; missing outcomes are successful sends. Returns (attempted chunks,
console lines). -/
def sendLoop : List Chunk → List SendOutcome → List Chunk × List String
  | [], _ => ([], [])
  | c :: cs, [] =>
    let rest := sendLoop cs []
    (c :: rest.1, rest.2)
  | c :: cs, o :: os =>
    let rest := sendLoop cs os
    match o with
    | SendOutcome.ok => (c :: rest.1, rest.2)
    | SendOutcome.errMsg m =>
      (c :: rest.1,
        if strIncludes m "CLOSING" || strIncludes m "CLOSED" then rest.2
        else "Error sending realtime input:" :: rest.2)

structure SendRTResult where
  sent : List Chunk
  events : List ClientEvent
  console : List String
deriving DecidableEq, Repr

/-- GenAILiveClient.sendRealtimeInput: returns silently (no event at all)
when status is not connected or no session is held, and again when the
session readyState is not WebSocket.OPEN; otherwise every chunk is attempted
through sendLoop and one client.realtimeInput log event is emitted (its
audio/video text payload is not modelled). The function has no throw path. -/
def sendRealtimeInput (st : ClientState) (chunks : List Chunk)
    (outs : List SendOutcome) : SendRTResult :=
  if st.status != Status.connected || st.session.isNone then ⟨[], [], []⟩
  else
    match st.session with
    | none => ⟨[], [], []⟩
    | some s =>
      if s.readyState != WebSocketOPEN then ⟨[], [], []⟩
      else
        let r := sendLoop chunks outs
        ⟨r.1, [ClientEvent.logEv "client.realtimeInput"], r.2⟩

end GenAILiveClient

/-- Specification-side description of the console lines sendLoop produces:
one line per paired outcome that throws with a message matching neither
CLOSING nor CLOSED. -/
def loggedSendFailures (chunks : List Chunk) (outs : List SendOutcome) :
    List String :=
  (chunks.zip outs).filterMap fun co =>
    match co.2 with
    | SendOutcome.ok => none
    | SendOutcome.errMsg m =>
      if strIncludes m "CLOSING" || strIncludes m "CLOSED" then none
      else some "Error sending realtime input:"

/-! Connection coordinator (use-live-api.ts). -/

namespace useLiveApi

/-- Observable outcome of one coordinator connect call: the connected flag
(driven by the open event handler), the groundingChunks state, the client
state and the value client.connect resolved to. -/
structure CoordConnectResult where
  connected : Bool
  groundingChunks : List GroundingChunk
  clientState : ClientState
  clientRet : Bool
deriving DecidableEq, Repr

/-- useLiveApi.connect: no-op when already connected; otherwise clears the
grounding references and awaits client.connect. The Except return type
records whether the call rejects. Its only throw sites are the
missing-config guard (dead: the held config state is initialised to the empty
object, which is truthy in JS) and the catch that rethrows a client.connect
rejection (dead: GenAILiveClient.connect wraps its single awaited transport
call in try/catch and resolves false instead of rethrowing, as modelled by
GenAILiveClient.connect). The connected flag is set true by the open event
handler, hence exactly when the transport open fired. -/
def connect (connected : Bool) (grounding : List GroundingChunk)
    (clientSt : ClientState) (outcome : GenAILiveClient.ConnectOutcome) :
    Except String CoordConnectResult :=
  if connected then Except.ok ⟨connected, grounding, clientSt, false⟩
  else
    let r := GenAILiveClient.connect clientSt outcome
    Except.ok ⟨connected || r.openFired, [], r.state, r.ret⟩

/-- Coordinator teardown state, from useLiveApi.disconnect and its handlers:
the client status and handle, disconnectPromiseRef (curPromise, holding the
id of the in-flight promise), disconnectResolver (resolver, holding the id of
the promise the installed resolver settles), a fresh-promise counter, the
number of client.disconnect invocations, the number of scheduled 5000 ms
timeouts, and the ids of the promises resolved so far. -/
structure DState where
  clientStatus : Status
  clientSession : Option SessionHandle
  curPromise : Option Nat
  resolver : Option Nat
  nextId : Nat
  closeCalls : Nat
  timeoutsScheduled : Nat
  resolved : List Nat
deriving DecidableEq, Repr

/-- What a coordinator disconnect call hands back to its caller: an already
resolved promise, or the (possibly shared) in-flight promise id. -/
inductive DisconnectRet where
  | immediate
  | promise (id : Nat)
deriving DecidableEq, Repr

/-- The bounded teardown timeout, the literal 5000 passed to setTimeout. -/
def disconnectTimeoutMs : Nat := 5000

/-- useLiveApi.disconnect: resolve immediately when the client is already
disconnected with no teardown in flight; hand every caller the stored promise
when one is in flight; otherwise create one promise, install its resolver,
call client.disconnect exactly once (it cannot throw: its close call sits in
its own try/catch), schedule the 5000 ms forced-resolution timeout, and store
the promise. -/
def disconnect (s : DState) : DisconnectRet × DState :=
  if s.clientStatus = Status.disconnected ∧ s.curPromise = none then
    (DisconnectRet.immediate, s)
  else
    match s.curPromise with
    | some p => (DisconnectRet.promise p, s)
    | none =>
      (DisconnectRet.promise s.nextId,
        { clientStatus := Status.disconnected
          clientSession := none
          curPromise := some s.nextId
          resolver := some s.nextId
          nextId := s.nextId + 1
          closeCalls := s.closeCalls + 1
          timeoutsScheduled := s.timeoutsScheduled + 1
          resolved := s.resolved })

/-- Shared resolution path of the close handler and the timeout callback:
when a resolver is still installed, resolve its promise and null the
resolver; the resolved promise then clears disconnectPromiseRef through its
attached then-cleanup. -/
def resolvePending (s : DState) : DState :=
  match s.resolver with
  | none => s
  | some p =>
    { s with resolver := none, curPromise := none, resolved := p :: s.resolved }

/-- The close event handler: the client reports disconnected and the pending
disconnect promise, if any, is resolved. -/
def onCloseEvt (s : DState) : DState :=
  resolvePending { s with clientStatus := Status.disconnected, clientSession := none }

/-- The setTimeout callback after disconnectTimeoutMs: force resolution when
the close event has not arrived. -/
def timeoutFires (s : DState) : DState := resolvePending s

end useLiveApi

/-! Coordinator grounding accumulation (use-live-api.ts): onOpen resets the
groundingChunks state to the empty list, onGrounding appends the arriving
chunk list to the previous state. -/

inductive GEvent where
  | openEvt
  | grounding (cs : List GroundingChunk)
deriving DecidableEq, Repr

/-- One React state update of groundingChunks per coordinator event. -/
def groundingStep (acc : List GroundingChunk) : GEvent → List GroundingChunk
  | GEvent.openEvt => []
  | GEvent.grounding cs => acc ++ cs

/-- The exposed groundingChunks value after a sequence of events. -/
def runGrounding (init : List GroundingChunk) (evs : List GEvent) :
    List GroundingChunk :=
  evs.foldl groundingStep init

def groundingOf : GEvent → Option (List GroundingChunk)
  | GEvent.openEvt => none
  | GEvent.grounding cs => some cs

/-- Concatenation of chunk lists in arrival order. -/
def concatAll (ls : List (List GroundingChunk)) : List GroundingChunk :=
  ls.foldr (fun l acc => l ++ acc) []

/-! Helper lemmas. -/

lemma mem_groundingEvents {sc : ServerContent} {e : ClientEvent}
    (h : e ∈ groundingEvents sc) :
    e = ClientEvent.grounding (groundingChunksOf sc) ∨
      e = ClientEvent.logEv "server.grounding" := by
  unfold groundingEvents at h
  by_cases hl : (groundingChunksOf sc).length != 0
  · rw [if_pos hl] at h
    simpa using h
  · rw [if_neg hl] at h
    simp at h

lemma onMessage_serverContent (dec : String → Option (List Nat))
    (sc : ServerContent) :
    onMessage dec (serverContentMsg sc) =
      (if sc.interrupted.isSome then
        ⟨groundingEvents sc ++
          [ClientEvent.logEv "receive.serverContent", ClientEvent.interrupted], []⟩
      else
        let tc :=
          if sc.turnComplete.isSome then
            [ClientEvent.logEv "server.send", ClientEvent.turncomplete]
          else []
        match sc.modelTurn with
        | some mt =>
          match mt.parts with
          | some ps =>
            let r := processParts dec ps
            let contentEvs :=
              if r.2.1.length != 0 then
                [ClientEvent.content ⟨some r.2.1⟩, ClientEvent.logEv "server.content"]
              else []
            ⟨groundingEvents sc ++ tc ++ r.1 ++ contentEvs, r.2.2⟩
          | none =>
            ⟨groundingEvents sc ++ tc ++
              [ClientEvent.content mt, ClientEvent.logEv "server.content"], []⟩
        | none => ⟨groundingEvents sc ++ tc, ["received unmatched message"]⟩ : Emitted) := by
  rfl

lemma groundingEvents_of_none {sc : ServerContent}
    (h : sc.groundingMetadata = none) : groundingEvents sc = [] := by
  unfold groundingEvents groundingChunksOf
  rw [h]
  rfl

lemma processParts_spec (dec : String → Option (List Nat)) (ps : List Part) :
    (processParts dec ps).1 = audioEventStream dec ps ∧
    (processParts dec ps).2.1 = nonAudioParts ps ∧
    (processParts dec ps).2.2 = failedDecodes dec ps := by
  induction ps with
  | nil => exact ⟨rfl, rfl, rfl⟩
  | cons p ps ih =>
    simp only [processParts]
    rcases haud : audioData p with _ | d
    · simp only [haud]
      refine ⟨?_, ?_, ?_⟩
      · simp [audioEventStream, decodedAudio, haud, ih.1]
      · simp [nonAudioParts, haud, ih.2.1]
      · simp [failedDecodes, haud, ih.2.2]
    · rcases hdec : dec d with _ | bytes
      · simp only [haud, hdec]
        refine ⟨?_, ?_, ?_⟩
        · simp [audioEventStream, decodedAudio, haud, hdec, ih.1]
        · simp [nonAudioParts, haud, ih.2.1]
        · simp [failedDecodes, haud, hdec, ih.2.2]
      · simp only [haud, hdec]
        refine ⟨?_, ?_, ?_⟩
        · simp [audioEventStream, decodedAudio, haud, hdec, ih.1]
        · simp [nonAudioParts, haud, ih.2.1]
        · simp [failedDecodes, haud, hdec, ih.2.2]

lemma runGrounding_no_open (init : List GroundingChunk) (evs : List GEvent)
    (h : GEvent.openEvt ∉ evs) :
    runGrounding init evs = init ++ concatAll (evs.filterMap groundingOf) := by
  induction evs generalizing init with
  | nil => simp [runGrounding, concatAll]
  | cons e es ih =>
    rcases e with _ | cs
    · exact absurd (List.mem_cons_self _ _) h
    · have h' : GEvent.openEvt ∉ es := fun hm => h (List.mem_cons_of_mem _ hm)
      have hstep : runGrounding init (GEvent.grounding cs :: es) =
          runGrounding (init ++ cs) es := rfl
      rw [hstep, ih (init ++ cs) h']
      simp [concatAll, groundingOf, List.filterMap_cons, List.append_assoc]

lemma sendLoop_spec (chunks : List Chunk) :
    ∀ outs : List SendOutcome,
      (GenAILiveClient.sendLoop chunks outs).1 = chunks ∧
      (GenAILiveClient.sendLoop chunks outs).2 = loggedSendFailures chunks outs := by
  induction chunks with
  | nil => intro outs; exact ⟨rfl, rfl⟩
  | cons c cs ih =>
    intro outs
    rcases outs with _ | ⟨o, os⟩
    · obtain ⟨h1, h2⟩ := ih []
      exact ⟨by simp [GenAILiveClient.sendLoop, h1],
        by simp [GenAILiveClient.sendLoop, h2, loggedSendFailures]⟩
    · obtain ⟨h1, h2⟩ := ih os
      rcases o with _ | m
      · exact ⟨by simp [GenAILiveClient.sendLoop, h1],
          by simp [GenAILiveClient.sendLoop, h2, loggedSendFailures]⟩
      · have hzip : loggedSendFailures (c :: cs) (SendOutcome.errMsg m :: os) =
            (if strIncludes m "CLOSING" || strIncludes m "CLOSED" then
              loggedSendFailures cs os
            else "Error sending realtime input:" :: loggedSendFailures cs os) := by
          unfold loggedSendFailures
          rw [List.zip_cons_cons, List.filterMap_cons]
          by_cases hb : (strIncludes m "CLOSING" || strIncludes m "CLOSED") = true
          · simp only [hb, if_true]
          · simp only [hb, if_false, Bool.or_eq_true] at *
            simp [hb]
        constructor
        · by_cases hb : (strIncludes m "CLOSING" || strIncludes m "CLOSED") = true
          · simp [GenAILiveClient.sendLoop, h1, hb]
          · simp [GenAILiveClient.sendLoop, h1, hb]
        · rw [hzip]
          by_cases hb : (strIncludes m "CLOSING" || strIncludes m "CLOSED") = true
          · simp [GenAILiveClient.sendLoop, h2, hb]
          · simp [GenAILiveClient.sendLoop, h2, hb]

/-! Claims. -/

/-- Claim C1: for every inbound serverContent frame whose serverContent is
marked interrupted, onMessage publishes interrupted and never publishes
turncomplete for that frame: the interrupted branch returns before the
turn-complete check is reached. -/
theorem interrupted_short_circuits_turncomplete
    (dec : String → Option (List Nat)) (sc : ServerContent)
    (h : sc.interrupted.isSome) :
    ClientEvent.turncomplete ∉ (onMessage dec (serverContentMsg sc)).events ∧
      ClientEvent.interrupted ∈ (onMessage dec (serverContentMsg sc)).events := by
  rw [onMessage_serverContent, if_pos h]
  constructor
  · intro hmem
    simp only [List.mem_append, List.mem_cons, List.not_mem_nil] at hmem
    rcases hmem with hg | hrest
    · rcases mem_groundingEvents hg with h1 | h1 <;> exact ClientEvent.noConfusion h1
    · rcases hrest with h1 | h1 | h1 <;> first
        | exact ClientEvent.noConfusion h1
        | exact h1
  · simp

/-- Witness for C1 at a concrete frame that is marked both interrupted and
turn-complete and also carries an audio part. -/
theorem interrupted_short_circuits_turncomplete_witness :
    ClientEvent.turncomplete ∉
      (onMessage (fun _ => some [0])
        (serverContentMsg
          ⟨none, some true, some true,
            some ⟨some [⟨some ⟨some "audio/pcm;rate=24000", some "AAAA"⟩, none⟩]⟩⟩)).events ∧
    ClientEvent.interrupted ∈
      (onMessage (fun _ => some [0])
        (serverContentMsg
          ⟨none, some true, some true,
            some ⟨some [⟨some ⟨some "audio/pcm;rate=24000", some "AAAA"⟩, none⟩]⟩⟩)).events :=
  interrupted_short_circuits_turncomplete (fun _ => some [0])
    ⟨none, some true, some true,
      some ⟨some [⟨some ⟨some "audio/pcm;rate=24000", some "AAAA"⟩, none⟩]⟩⟩
    (by decide)

/-- Claim C10: the demultiplexer gates the interrupted and turn-complete
branches on key presence, not truthiness: a serverContent object containing
the key interrupted with value false still publishes interrupted and skips
part processing (no audio or content event); a frame containing the key
turnComplete with value false still publishes turncomplete. -/
theorem presence_gating_not_truthiness :
    (∀ (dec : String → Option (List Nat)) (sc : ServerContent),
      sc.interrupted = some false →
        ClientEvent.interrupted ∈ (onMessage dec (serverContentMsg sc)).events ∧
        (∀ b, ClientEvent.audio b ∉ (onMessage dec (serverContentMsg sc)).events) ∧
        (∀ mt, ClientEvent.content mt ∉ (onMessage dec (serverContentMsg sc)).events)) ∧
    (∀ (dec : String → Option (List Nat)) (sc : ServerContent),
      sc.interrupted = none → sc.turnComplete = some false →
        ClientEvent.turncomplete ∈ (onMessage dec (serverContentMsg sc)).events) := by
  constructor
  · intro dec sc h
    rw [onMessage_serverContent, if_pos (by rw [h]; rfl)]
    refine ⟨by simp, ?_, ?_⟩
    · intro b hmem
      simp only [List.mem_append, List.mem_cons, List.not_mem_nil, or_false] at hmem
      rcases hmem with hg | h1 | h1
      · rcases mem_groundingEvents hg with h2 | h2 <;> exact ClientEvent.noConfusion h2
      · exact ClientEvent.noConfusion h1
      · exact ClientEvent.noConfusion h1
    · intro mt hmem
      simp only [List.mem_append, List.mem_cons, List.not_mem_nil, or_false] at hmem
      rcases hmem with hg | h1 | h1
      · rcases mem_groundingEvents hg with h2 | h2 <;> exact ClientEvent.noConfusion h2
      · exact ClientEvent.noConfusion h1
      · exact ClientEvent.noConfusion h1
  · intro dec sc h1 h2
    rw [onMessage_serverContent, if_neg (by rw [h1]; simp)]
    simp only [h2, Option.isSome_some, if_true]
    rcases hmt : sc.modelTurn with _ | mt
    · simp
    · rcases hp : mt.parts with _ | ps <;> simp [hp]

/-- Witness for C10 at concrete frames whose interrupted (resp. turnComplete)
key holds the value false while an audio part is also present. -/
theorem presence_gating_not_truthiness_witness :
    (ClientEvent.interrupted ∈
      (onMessage (fun _ => some [0])
        (serverContentMsg
          ⟨none, some false, none,
            some ⟨some [⟨some ⟨some "audio/pcm", some "AAAA"⟩, none⟩]⟩⟩)).events ∧
      (∀ b, ClientEvent.audio b ∉
        (onMessage (fun _ => some [0])
          (serverContentMsg
            ⟨none, some false, none,
              some ⟨some [⟨some ⟨some "audio/pcm", some "AAAA"⟩, none⟩]⟩⟩)).events) ∧
      (∀ mt, ClientEvent.content mt ∉
        (onMessage (fun _ => some [0])
          (serverContentMsg
            ⟨none, some false, none,
              some ⟨some [⟨some ⟨some "audio/pcm", some "AAAA"⟩, none⟩]⟩⟩)).events)) ∧
    ClientEvent.turncomplete ∈
      (onMessage (fun _ => some [0])
        (serverContentMsg ⟨none, none, some false, none⟩)).events :=
  ⟨presence_gating_not_truthiness.1 (fun _ => some [0])
      ⟨none, some false, none,
        some ⟨some [⟨some ⟨some "audio/pcm", some "AAAA"⟩, none⟩]⟩⟩ rfl,
    presence_gating_not_truthiness.2 (fun _ => some [0])
      ⟨none, none, some false, none⟩ rfl rfl⟩

/-- Claim C8 counterexample: a serverContent frame with no parts list and no
interrupted or turnComplete key, but carrying grounding metadata with one
chunk, does publish events (grounding and its log) even though the claim says
no event of any category is published for such a frame. -/
theorem partless_frame_publishes_grounding :
    ClientEvent.grounding [⟨"https://example.com", "t"⟩] ∈
      (onMessage (fun _ => none)
        (serverContentMsg
          ⟨some ⟨some [⟨"https://example.com", "t"⟩]⟩, none, none, none⟩)).events ∧
    (onMessage (fun _ => none)
      (serverContentMsg
        ⟨some ⟨some [⟨"https://example.com", "t"⟩]⟩, none, none, none⟩)).console =
      ["received unmatched message"] := by decide

/-- Claim C8 as amended: a serverContent frame with no interrupted or
turnComplete key and no modelTurn is logged to the console as unmatched; the
only events it can publish are the grounding event and its grounding log
(exactly when grounding metadata with a non-empty chunk list is present), and
with no grounding metadata no event at all is published. -/
theorem partless_frame_console_only
    (dec : String → Option (List Nat)) (sc : ServerContent)
    (h1 : sc.interrupted = none) (h2 : sc.turnComplete = none)
    (h3 : sc.modelTurn = none) :
    (onMessage dec (serverContentMsg sc)).console = ["received unmatched message"] ∧
    (onMessage dec (serverContentMsg sc)).events = groundingEvents sc ∧
    (sc.groundingMetadata = none →
      (onMessage dec (serverContentMsg sc)).events = []) := by
  have hbase : onMessage dec (serverContentMsg sc) =
      ⟨groundingEvents sc, ["received unmatched message"]⟩ := by
    rw [onMessage_serverContent, if_neg (by rw [h1]; simp)]
    simp only [h2, h3, Option.isSome_none, Bool.false_eq_true, if_false]
    simp
  rw [hbase]
  exact ⟨rfl, rfl, fun h4 => groundingEvents_of_none h4⟩

/-- Witness for C8 as amended, at a grounding-free unmatched frame. -/
theorem partless_frame_console_only_witness :
    (onMessage (fun _ => none)
      (serverContentMsg ⟨none, none, none, none⟩)).console =
        ["received unmatched message"] ∧
    (onMessage (fun _ => none)
      (serverContentMsg ⟨none, none, none, none⟩)).events =
        groundingEvents ⟨none, none, none, none⟩ ∧
    ((⟨none, none, none, none⟩ : ServerContent).groundingMetadata = none →
      (onMessage (fun _ => none)
        (serverContentMsg ⟨none, none, none, none⟩)).events = []) :=
  partless_frame_console_only (fun _ => none) ⟨none, none, none, none⟩ rfl rfl rfl

/-- Claim C7: in a modelTurn frame, every audio part with a decodable payload
yields one audio event with the decoded buffer; a part whose payload fails to
decode contributes only a console line and is dropped without affecting its
siblings; the remaining non-audio parts are published through one content
event holding exactly those parts, and no content event is published when
none remain. -/
theorem audio_decode_isolation :
    (∀ (dec : String → Option (List Nat)) (ps : List Part),
      (processParts dec ps).1 = audioEventStream dec ps ∧
      (processParts dec ps).2.1 = nonAudioParts ps ∧
      (processParts dec ps).2.2 = failedDecodes dec ps) ∧
    (∀ (dec : String → Option (List Nat)) (sc : ServerContent)
      (mt : ModelTurn) (ps : List Part),
      sc.interrupted = none → sc.turnComplete = none →
      sc.groundingMetadata = none → sc.modelTurn = some mt → mt.parts = some ps →
      (onMessage dec (serverContentMsg sc)).events =
        audioEventStream dec ps ++
          (if nonAudioParts ps = [] then []
           else [ClientEvent.content ⟨some (nonAudioParts ps)⟩,
                 ClientEvent.logEv "server.content"]) ∧
      (onMessage dec (serverContentMsg sc)).console = failedDecodes dec ps) := by
  refine ⟨processParts_spec, ?_⟩
  intro dec sc mt ps h1 h2 h3 h4 h5
  rw [onMessage_serverContent, if_neg (by rw [h1]; simp)]
  simp only [h2, Option.isSome_none, Bool.false_eq_true, if_false, h4, h5]
  rw [groundingEvents_of_none h3]
  obtain ⟨e1, e2, e3⟩ := processParts_spec dec ps
  refine ⟨?_, ?_⟩
  · simp only [e1, e2]
    by_cases hn : nonAudioParts ps = []
    · simp [hn]
    · have hlen : (nonAudioParts ps).length ≠ 0 := by
        simpa [List.length_eq_zero] using hn
      simp [hn, hlen]
  · exact e3

/-- Witness for C7 on a frame holding a decodable audio part, an audio part
whose decode fails, and a text part. -/
theorem audio_decode_isolation_witness :
    (onMessage (fun s => if s = "good" then some [1, 2, 3] else none)
      (serverContentMsg
        ⟨none, none, none,
          some ⟨some [⟨some ⟨some "audio/pcm;rate=24000", some "good"⟩, none⟩,
                      ⟨some ⟨some "audio/pcm", some "bad"⟩, none⟩,
                      ⟨none, some "hello"⟩]⟩⟩)).events =
      audioEventStream (fun s => if s = "good" then some [1, 2, 3] else none)
          [⟨some ⟨some "audio/pcm;rate=24000", some "good"⟩, none⟩,
           ⟨some ⟨some "audio/pcm", some "bad"⟩, none⟩,
           ⟨none, some "hello"⟩] ++
        (if nonAudioParts
              [⟨some ⟨some "audio/pcm;rate=24000", some "good"⟩, none⟩,
               ⟨some ⟨some "audio/pcm", some "bad"⟩, none⟩,
               ⟨none, some "hello"⟩] = [] then []
         else [ClientEvent.content
                  ⟨some (nonAudioParts
                    [⟨some ⟨some "audio/pcm;rate=24000", some "good"⟩, none⟩,
                     ⟨some ⟨some "audio/pcm", some "bad"⟩, none⟩,
                     ⟨none, some "hello"⟩])⟩,
               ClientEvent.logEv "server.content"]) ∧
    (onMessage (fun s => if s = "good" then some [1, 2, 3] else none)
      (serverContentMsg
        ⟨none, none, none,
          some ⟨some [⟨some ⟨some "audio/pcm;rate=24000", some "good"⟩, none⟩,
                      ⟨some ⟨some "audio/pcm", some "bad"⟩, none⟩,
                      ⟨none, some "hello"⟩]⟩⟩)).console = [decodeFailMsg] ∧
    (onMessage (fun s => if s = "good" then some [1, 2, 3] else none)
      (serverContentMsg
        ⟨none, none, none,
          some ⟨some [⟨some ⟨some "audio/pcm;rate=24000", some "good"⟩, none⟩,
                      ⟨some ⟨some "audio/pcm", some "bad"⟩, none⟩,
                      ⟨none, some "hello"⟩]⟩⟩)).events =
      [ClientEvent.audio [1, 2, 3], ClientEvent.logEv "server.audio",
       ClientEvent.content ⟨some [⟨none, some "hello"⟩]⟩,
       ClientEvent.logEv "server.content"] := by
  have h := audio_decode_isolation.2
    (fun s => if s = "good" then some [1, 2, 3] else none)
    ⟨none, none, none,
      some ⟨some [⟨some ⟨some "audio/pcm;rate=24000", some "good"⟩, none⟩,
                  ⟨some ⟨some "audio/pcm", some "bad"⟩, none⟩,
                  ⟨none, some "hello"⟩]⟩⟩
    ⟨some [⟨some ⟨some "audio/pcm;rate=24000", some "good"⟩, none⟩,
           ⟨some ⟨some "audio/pcm", some "bad"⟩, none⟩,
           ⟨none, some "hello"⟩]⟩
    [⟨some ⟨some "audio/pcm;rate=24000", some "good"⟩, none⟩,
     ⟨some ⟨some "audio/pcm", some "bad"⟩, none⟩,
     ⟨none, some "hello"⟩]
    rfl rfl rfl rfl rfl
  have hfail : (onMessage (fun s => if s = "good" then some [1, 2, 3] else none)
      (serverContentMsg
        ⟨none, none, none,
          some ⟨some [⟨some ⟨some "audio/pcm;rate=24000", some "good"⟩, none⟩,
                      ⟨some ⟨some "audio/pcm", some "bad"⟩, none⟩,
                      ⟨none, some "hello"⟩]⟩⟩)).console = [decodeFailMsg] := by decide
  exact ⟨h.1, hfail, by decide⟩

/-- Claim C9: across any sequence of grounding and open events, the exposed
grounding-reference list equals the concatenation, in arrival order, of all
chunk lists received since the most recent open event, and it is reset to
empty exactly on each open event (with no open event, the initial list only
accumulates and is never reset). -/
theorem grounding_accumulate_reset :
    (∀ (init : List GroundingChunk) (pre post : List GEvent),
      GEvent.openEvt ∉ post →
      runGrounding init (pre ++ GEvent.openEvt :: post) =
        concatAll (post.filterMap groundingOf)) ∧
    (∀ (init : List GroundingChunk) (evs : List GEvent),
      GEvent.openEvt ∉ evs →
      runGrounding init evs = init ++ concatAll (evs.filterMap groundingOf)) := by
  refine ⟨?_, runGrounding_no_open⟩
  intro init pre post h
  have h1 : runGrounding init (pre ++ GEvent.openEvt :: post) =
      runGrounding (runGrounding init pre) (GEvent.openEvt :: post) := by
    simp [runGrounding, List.foldl_append]
  have h2 : runGrounding (runGrounding init pre) (GEvent.openEvt :: post) =
      runGrounding [] post := rfl
  rw [h1, h2, runGrounding_no_open [] post h]
  simp

/-- Witness for C9: a history with chunks before and after the open event;
only those after the open remain, in arrival order. -/
theorem grounding_accumulate_reset_witness :
    runGrounding [⟨"u0", "t0"⟩]
        ([GEvent.grounding [⟨"u1", "t1"⟩]] ++ GEvent.openEvt ::
          [GEvent.grounding [⟨"u2", "t2"⟩], GEvent.grounding [⟨"u3", "t3"⟩]]) =
      concatAll (([GEvent.grounding [⟨"u2", "t2"⟩],
        GEvent.grounding [⟨"u3", "t3"⟩]] : List GEvent).filterMap groundingOf) ∧
    runGrounding [⟨"u0", "t0"⟩]
        ([GEvent.grounding [⟨"u1", "t1"⟩]] ++ GEvent.openEvt ::
          [GEvent.grounding [⟨"u2", "t2"⟩], GEvent.grounding [⟨"u3", "t3"⟩]]) =
      [⟨"u2", "t2"⟩, ⟨"u3", "t3"⟩] :=
  ⟨grounding_accumulate_reset.1 [⟨"u0", "t0"⟩] [GEvent.grounding [⟨"u1", "t1"⟩]]
      [GEvent.grounding [⟨"u2", "t2"⟩], GEvent.grounding [⟨"u3", "t3"⟩]]
      (by decide),
    by decide⟩

/-- Claim C4: calling the session client connect while status is connecting
or connected is a no-op: it returns false, initiates no transport open, and
leaves status and the connection handle unchanged. -/
theorem connect_noop_while_active (st : ClientState)
    (outcome : GenAILiveClient.ConnectOutcome)
    (h : st.status = Status.connected ∨ st.status = Status.connecting) :
    GenAILiveClient.connect st outcome =
      ⟨false, st, 0, false⟩ := by
  unfold GenAILiveClient.connect
  rcases h with h | h <;> simp [h]

/-- Witness for C4 on a connected client handed a would-succeed transport. -/
theorem connect_noop_while_active_witness :
    GenAILiveClient.connect ⟨Status.connected, some ⟨1⟩⟩
        (GenAILiveClient.ConnectOutcome.ok ⟨1⟩) =
      ⟨false, ⟨Status.connected, some ⟨1⟩⟩, 0, false⟩ :=
  connect_noop_while_active ⟨Status.connected, some ⟨1⟩⟩
    (GenAILiveClient.ConnectOutcome.ok ⟨1⟩) (Or.inl rfl)

/-- Claim C6: the session client disconnect, from every starting state and
whether or not the underlying close call throws, clears the connection
handle, sets status to disconnected, emits the client.close log, and returns
true to its caller (it is a total function of the close outcome: no
exception escapes). -/
theorem client_disconnect_total (st : ClientState) (closeThrows : Bool) :
    (GenAILiveClient.disconnect st closeThrows).state =
      ⟨Status.disconnected, none⟩ ∧
    (GenAILiveClient.disconnect st closeThrows).ret = true ∧
    (GenAILiveClient.disconnect st closeThrows).events =
      [ClientEvent.logEv "client.close"] :=
  ⟨rfl, rfl, rfl⟩

/-- Claim C5: sendRealtimeInput silently drops all frames (no event of any
kind, in particular no error event) when status is not connected, when no
session is held, or when the session readyState is not WebSocket.OPEN; when
it proceeds, every frame of the batch is attempted regardless of earlier
per-frame failures, a CLOSING/CLOSED send failure is swallowed silently,
any other failure writes one console line, no error event is ever published,
and the operation never raises. -/
theorem sendRealtimeInput_guarded_and_isolated :
    (∀ (st : ClientState) (chunks : List Chunk) (outs : List SendOutcome),
      st.status ≠ Status.connected ∨ st.session = none →
      GenAILiveClient.sendRealtimeInput st chunks outs = ⟨[], [], []⟩) ∧
    (∀ (st : ClientState) (s : SessionHandle) (chunks : List Chunk)
      (outs : List SendOutcome),
      st.session = some s → s.readyState ≠ WebSocketOPEN →
      GenAILiveClient.sendRealtimeInput st chunks outs = ⟨[], [], []⟩) ∧
    (∀ (st : ClientState) (s : SessionHandle) (chunks : List Chunk)
      (outs : List SendOutcome),
      st.status = Status.connected → st.session = some s →
      s.readyState = WebSocketOPEN →
      (GenAILiveClient.sendRealtimeInput st chunks outs).sent = chunks ∧
      (GenAILiveClient.sendRealtimeInput st chunks outs).events =
        [ClientEvent.logEv "client.realtimeInput"] ∧
      (∀ m, ClientEvent.errorEv m ∉
        (GenAILiveClient.sendRealtimeInput st chunks outs).events) ∧
      (GenAILiveClient.sendRealtimeInput st chunks outs).console =
        loggedSendFailures chunks outs) := by
  refine ⟨?_, ?_, ?_⟩
  · intro st chunks outs h
    rcases h with h | h
    · simp [GenAILiveClient.sendRealtimeInput, h]
    · unfold GenAILiveClient.sendRealtimeInput
      rw [if_pos (by simp [h])]
  · intro st s chunks outs hs hr
    unfold GenAILiveClient.sendRealtimeInput
    by_cases hst : st.status = Status.connected
    · rw [if_neg (by simp [hst, hs])]
      simp only [hs]
      rw [if_pos (by simpa using hr)]
    · rw [if_pos (by simp [hst])]
  · intro st s chunks outs hst hs hr
    obtain ⟨l1, l2⟩ := sendLoop_spec chunks outs
    have hres : GenAILiveClient.sendRealtimeInput st chunks outs =
        ⟨GenAILiveClient.sendLoop chunks outs |>.1,
          [ClientEvent.logEv "client.realtimeInput"],
          GenAILiveClient.sendLoop chunks outs |>.2⟩ := by
      unfold GenAILiveClient.sendRealtimeInput
      rw [if_neg (by simp [hst, hs])]
      simp only [hs]
      rw [if_neg (by simp [hr])]
    rw [hres]
    refine ⟨l1, rfl, ?_, l2⟩
    intro m hmem
    simp only [List.mem_singleton] at hmem
    exact ClientEvent.noConfusion hmem

/-- Witness for C5: a dropped batch while disconnected publishes nothing, and
a connected batch of three frames (one fine, one failing with a CLOSING
message, one failing otherwise) attempts all three, publishes only the log
event, and writes exactly one console line. -/
theorem sendRealtimeInput_guarded_and_isolated_witness :
    GenAILiveClient.sendRealtimeInput ⟨Status.disconnected, none⟩
        [⟨"audio/pcm", "a"⟩] [] = ⟨[], [], []⟩ ∧
    (GenAILiveClient.sendRealtimeInput ⟨Status.connected, some ⟨1⟩⟩
        [⟨"audio/pcm", "a"⟩, ⟨"audio/pcm", "b"⟩, ⟨"image/jpeg", "c"⟩]
        [SendOutcome.ok, SendOutcome.errMsg "WebSocket is CLOSING",
         SendOutcome.errMsg "boom"]).sent =
      [⟨"audio/pcm", "a"⟩, ⟨"audio/pcm", "b"⟩, ⟨"image/jpeg", "c"⟩] ∧
    (GenAILiveClient.sendRealtimeInput ⟨Status.connected, some ⟨1⟩⟩
        [⟨"audio/pcm", "a"⟩, ⟨"audio/pcm", "b"⟩, ⟨"image/jpeg", "c"⟩]
        [SendOutcome.ok, SendOutcome.errMsg "WebSocket is CLOSING",
         SendOutcome.errMsg "boom"]).events =
      [ClientEvent.logEv "client.realtimeInput"] ∧
    (GenAILiveClient.sendRealtimeInput ⟨Status.connected, some ⟨1⟩⟩
        [⟨"audio/pcm", "a"⟩, ⟨"audio/pcm", "b"⟩, ⟨"image/jpeg", "c"⟩]
        [SendOutcome.ok, SendOutcome.errMsg "WebSocket is CLOSING",
         SendOutcome.errMsg "boom"]).console =
      ["Error sending realtime input:"] := by
  have h1 := sendRealtimeInput_guarded_and_isolated.1 ⟨Status.disconnected, none⟩
    [⟨"audio/pcm", "a"⟩] [] (Or.inl (by decide))
  have h3 := sendRealtimeInput_guarded_and_isolated.2.2 ⟨Status.connected, some ⟨1⟩⟩
    ⟨1⟩ [⟨"audio/pcm", "a"⟩, ⟨"audio/pcm", "b"⟩, ⟨"image/jpeg", "c"⟩]
    [SendOutcome.ok, SendOutcome.errMsg "WebSocket is CLOSING",
     SendOutcome.errMsg "boom"] rfl rfl rfl
  refine ⟨h1, h3.1, h3.2.1, ?_⟩
  rw [h3.2.2.2]
  decide

/-- Claim C2 counterexample: with the coordinator not yet connected and the
transport-level connect attempt failing, the coordinator connect resolves
normally (Except.ok, clientRet false, connected still false) instead of
rejecting: the failure is absorbed, not raised. -/
theorem coordinator_connect_failure_resolves_ok :
    useLiveApi.connect false [] ⟨Status.disconnected, none⟩
        GenAILiveClient.ConnectOutcome.err =
      Except.ok ⟨false, [], ⟨Status.disconnected, none⟩, false⟩ ∧
    (useLiveApi.connect false [] ⟨Status.disconnected, none⟩
        GenAILiveClient.ConnectOutcome.err).isOk = true := by
  constructor
  · rfl
  · rfl

/-- Claim C2 as amended: when a connection attempt fails at the transport
level, the session client connect catches the failure and resolves false, so
the coordinator connect resolves normally (never rejects), the connected flag
is left false, the client ends disconnected with the handle cleared, and the
grounding references are cleared; the failure is observable only through the
boolean the session client resolved to, which the coordinator ignores. -/
theorem coordinator_connect_failure_absorbed
    (grounding : List GroundingChunk) (hs : Option SessionHandle) :
    useLiveApi.connect false grounding ⟨Status.disconnected, hs⟩
        GenAILiveClient.ConnectOutcome.err =
      Except.ok ⟨false, [], ⟨Status.disconnected, none⟩, false⟩ := by
  simp [useLiveApi.connect, GenAILiveClient.connect]

/-- Claim C3: a coordinator disconnect call while a teardown is in flight
returns the identical stored promise and changes nothing, so N concurrent
calls perform exactly one client.disconnect; a call that starts the teardown
performs it once, schedules the forced-resolution timeout, and even if the
close event never arrives the timeout resolves the promise, with the bound
being the literal 5000 milliseconds. -/
theorem disconnect_single_teardown_bounded :
    (∀ (s : useLiveApi.DState) (p : Nat), s.curPromise = some p →
      useLiveApi.disconnect s = (useLiveApi.DisconnectRet.promise p, s)) ∧
    (∀ s : useLiveApi.DState,
      s.curPromise = none → s.clientStatus ≠ Status.disconnected →
      (useLiveApi.disconnect s).1 = useLiveApi.DisconnectRet.promise s.nextId ∧
      (useLiveApi.disconnect s).2.closeCalls = s.closeCalls + 1 ∧
      (useLiveApi.disconnect s).2.curPromise = some s.nextId ∧
      (useLiveApi.disconnect s).2.timeoutsScheduled = s.timeoutsScheduled + 1 ∧
      (∀ n : Nat,
        (fun t => (useLiveApi.disconnect t).2)^[n] (useLiveApi.disconnect s).2 =
          (useLiveApi.disconnect s).2) ∧
      s.nextId ∈ (useLiveApi.timeoutFires (useLiveApi.disconnect s).2).resolved ∧
      s.nextId ∈ (useLiveApi.onCloseEvt (useLiveApi.disconnect s).2).resolved) ∧
    useLiveApi.disconnectTimeoutMs = 5000 := by
  refine ⟨?_, ?_, rfl⟩
  · intro s p h
    unfold useLiveApi.disconnect
    rw [if_neg (by simp [h])]
    simp [h]
  · intro s h1 h2
    have hcall : useLiveApi.disconnect s =
        (useLiveApi.DisconnectRet.promise s.nextId,
          { clientStatus := Status.disconnected
            clientSession := none
            curPromise := some s.nextId
            resolver := some s.nextId
            nextId := s.nextId + 1
            closeCalls := s.closeCalls + 1
            timeoutsScheduled := s.timeoutsScheduled + 1
            resolved := s.resolved }) := by
      unfold useLiveApi.disconnect
      rw [if_neg (by simp [h2])]
      simp [h1]
    rw [hcall]
    refine ⟨rfl, rfl, rfl, rfl, ?_, ?_, ?_⟩
    · intro n
      apply Function.iterate_fixed
      unfold useLiveApi.disconnect
      rw [if_neg (by simp)]
    · simp [useLiveApi.timeoutFires, useLiveApi.resolvePending]
    · simp [useLiveApi.onCloseEvt, useLiveApi.resolvePending]

/-- Witness for C3: a connected state with no teardown in flight starts
exactly one close call and its promise is resolved by the forced timeout; a
state with promise 7 in flight hands promise 7 back unchanged. -/
theorem disconnect_single_teardown_bounded_witness :
    ((useLiveApi.disconnect
        ⟨Status.connected, some ⟨1⟩, none, none, 0, 0, 0, []⟩).2.closeCalls = 1 ∧
      (0 : Nat) ∈ (useLiveApi.timeoutFires
        (useLiveApi.disconnect
          ⟨Status.connected, some ⟨1⟩, none, none, 0, 0, 0, []⟩).2).resolved) ∧
    useLiveApi.disconnect
        ⟨Status.disconnected, none, some 7, some 7, 8, 1, 1, []⟩ =
      (useLiveApi.DisconnectRet.promise 7,
        ⟨Status.disconnected, none, some 7, some 7, 8, 1, 1, []⟩) := by
  have h2 := disconnect_single_teardown_bounded.2.1
    ⟨Status.connected, some ⟨1⟩, none, none, 0, 0, 0, []⟩ rfl (by decide)
  have h1 := disconnect_single_teardown_bounded.1
    ⟨Status.disconnected, none, some 7, some 7, 8, 1, 1, []⟩ 7 rfl
  exact ⟨⟨h2.2.1, h2.2.2.2.2.2.1⟩, h1⟩

end Chatterbots
